import Mathlib

/-!
Verification development for the image-quality application.

The definitions below are a shallow embedding of the JavaScript/TypeScript
sources:

* `src/shared/api-handlers.mjs` — the shared handler module.  The file holds
  two module-format forks of the same logic: an ES-module fork (its
  `validateImageData`, `analyzeImageBasic`, `processAnalyze`) and a CommonJS
  fork (its own `validateImageData`, `analyzeImageBasic`, `processAnalyze`,
  the step processors `processToneEnhance` / `processDetailEnhance` /
  `processUpscale`, and the orchestrator `processAutopilotEnhance`).
  Definitions from the ES fork carry the suffix `Esm`; definitions from the
  CommonJS fork carry the suffix `Cjs` or no suffix when only that fork
  defines them.
* `src/unnamed/part_007` (the Vercel autopilot-analyze endpoint) and
  `src/local-server.cjs` — both hold identical copies of the scorer
  (`calculateQualityScores` and its three dimension scorers) and of the
  planner (`generateEnhancementRecommendations`); they are embedded once.

JavaScript numbers are modelled as `ℤ` where the source only ever holds
integers (dimension scores, sizes, strengths, scales) and as `ℚ` where the
source holds decimal fractions (intensity, the 1–10 basic score).
`Math.round` is `⌊x + 1/2⌋`, which agrees with JavaScript on all rationals.
Base64 payloads are modelled as the literal strings the source receives;
provider calls (`replicate.run` plus its array/string output extraction) are
the external boundary and are modelled as explicit function parameters
returning `Except String String` (a transformed-image URL or a thrown error
message).  Wall-clock fields (`processing_time_ms`, `timestamp`) and the
echoed `config`/`environment` fields are not modelled.
-/

/-- JavaScript `Math.round`: round half towards positive infinity. -/
def jsRound (q : ℚ) : ℤ := ⌊q + 1/2⌋

/-! ## String helpers

Boolean prefix/substring tests over `List Char`, used to embed the regular
expressions and `String.prototype.includes` calls of the source.  All the
regexes in the source are plain alternations of literal prefixes, so prefix
tests are an exact embedding. -/

/-- `isPrefixOfB needle hay` is true iff `needle` is a prefix of `hay`. -/
def isPrefixOfB : List Char → List Char → Bool
  | [], _ => true
  | _ :: _, [] => false
  | a :: as, b :: bs => a == b && isPrefixOfB as bs

/-- `hasSubstrB needle hay` is true iff `needle` occurs inside `hay`
(JavaScript `hay.includes(needle)`). -/
def hasSubstrB (needle : List Char) : List Char → Bool
  | [] => needle.isEmpty
  | c :: rest => isPrefixOfB needle (c :: rest) || hasSubstrB needle rest

/-- `sIncludes needle hay` — JavaScript `hay.includes(needle)` on strings. -/
def sIncludes (needle hay : String) : Bool :=
  hasSubstrB needle.toList hay.toList

/-- `sStartsWith p s` — JavaScript `s.startsWith(p)`. -/
def sStartsWith (p s : String) : Bool :=
  isPrefixOfB p.toList s.toList

/-- Emptiness of a string, computed on its character list (the JavaScript
falsiness test `!s` for a string value). -/
def sIsEmpty (s : String) : Bool := s.toList.isEmpty

/-- Lower-case a string character-wise (ASCII), for the case-insensitive
regex flag `/i`. -/
def lcList (s : String) : List Char := s.toList.map Char.toLower

/-! ## Quality scorer

`calculateToneScore`, `calculateDetailScore`, `calculateResolutionScore` and
`calculateQualityScores` from `src/unnamed/part_007` lines 48–117 (identical
copies in `src/local-server.cjs` lines 16–73).  Each function receives the
analysis value and reads only the properties `quality_issues` and
`image_info`; `ScorerInput` records exactly the results of those two dynamic
property reads (`none` models JavaScript `undefined`, which is falsy). -/

/-- `analysis.image_info`: a width/height pair. -/
structure ImageInfoWH where
  width : ℕ
  height : ℕ
  deriving Repr, DecidableEq

/-- The two properties of the `analysis` argument that the scoring functions
read: `analysis.quality_issues` (an array of issue-tag strings, or absent)
and `analysis.image_info` (a `{width, height}` object, or absent). -/
structure ScorerInput where
  quality_issues : Option (List String)
  image_info : Option ImageInfoWH
  deriving Repr, DecidableEq

/-- Tone score before clamping: base 70, minus 20/20/15/15 for the four tone
issue tags (part_007 lines 69–78, before the final clamp). -/
def rawToneScore (analysis : ScorerInput) : ℤ :=
  let score : ℤ := 70
  match analysis.quality_issues with
  | none => score
  | some issues =>
    let score := if issues.contains "underexposed" then score - 20 else score
    let score := if issues.contains "overexposed" then score - 20 else score
    let score := if issues.contains "low_contrast" then score - 15 else score
    let score := if issues.contains "color_cast" then score - 15 else score
    score

/-- `calculateToneScore`: clamp of the raw tone score to [0, 100]
(`Math.max(0, Math.min(100, score))`). -/
def calculateToneScore (analysis : ScorerInput) : ℤ :=
  max 0 (min 100 (rawToneScore analysis))

/-- Detail score before clamping: base 75, minus 25/20/15/10 for the four
detail issue tags (part_007 lines 87–95). -/
def rawDetailScore (analysis : ScorerInput) : ℤ :=
  let score : ℤ := 75
  match analysis.quality_issues with
  | none => score
  | some issues =>
    let score := if issues.contains "blurry" then score - 25 else score
    let score := if issues.contains "noisy" then score - 20 else score
    let score := if issues.contains "compression_artifacts" then score - 15 else score
    let score := if issues.contains "soft_details" then score - 10 else score
    score

/-- `calculateDetailScore`: clamp of the raw detail score to [0, 100]. -/
def calculateDetailScore (analysis : ScorerInput) : ℤ :=
  max 0 (min 100 (rawDetailScore analysis))

/-- Resolution score before clamping: base 80; when `image_info` is present,
subtract 30 below 0.5 MP, else 20 below 1 MP, else 10 below 2 MP
(part_007 lines 103–114). -/
def rawResolutionScore (analysis : ScorerInput) : ℤ :=
  let score : ℤ := 80
  match analysis.image_info with
  | none => score
  | some info =>
    let totalPixels : ℤ := info.width * info.height
    if totalPixels < 500000 then score - 30
    else if totalPixels < 1000000 then score - 20
    else if totalPixels < 2000000 then score - 10
    else score

/-- `calculateResolutionScore`: clamp of the raw resolution score to [0, 100]. -/
def calculateResolutionScore (analysis : ScorerInput) : ℤ :=
  max 0 (min 100 (rawResolutionScore analysis))

/-- The scorer output `{tone, detail, resolution, overall}`. -/
structure Scores where
  tone : ℤ
  detail : ℤ
  resolution : ℤ
  overall : ℤ
  deriving Repr, DecidableEq

/-- `calculateQualityScores` (part_007 lines 48–64): the three dimension
scores (already integers, so `Math.round` on them is the identity) and
`overall = Math.round((toneScore + detailScore + resolutionScore) / 3)`. -/
def calculateQualityScores (analysis : ScorerInput) : Scores :=
  { tone := calculateToneScore analysis
    detail := calculateDetailScore analysis
    resolution := calculateResolutionScore analysis
    overall := jsRound (((calculateToneScore analysis : ℚ) +
      (calculateDetailScore analysis : ℚ) +
      (calculateResolutionScore analysis : ℚ)) / 3) }

/-! ## Recommendation planner

`generateEnhancementRecommendations` from `src/unnamed/part_007` lines
122–161 (identical copy in `src/local-server.cjs` lines 75–114). -/

/-- The tone step configuration pushed by the planner. -/
structure ToneRec where
  enabled : Bool
  type : String
  intensity : ℚ
  deriving Repr, DecidableEq

/-- The detail step configuration pushed by the planner. -/
structure DetailRec where
  enabled : Bool
  type : String
  strength : ℤ
  deriving Repr, DecidableEq

/-- The upscale step configuration pushed by the planner. -/
structure UpscaleRec where
  enabled : Bool
  scale : ℤ
  model : String
  deriving Repr, DecidableEq

/-- The planner output: three optional step configurations plus the
`priority` list of step names. -/
structure Recommendations where
  tone : Option ToneRec
  detail : Option DetailRec
  upscale : Option UpscaleRec
  priority : List String
  deriving Repr, DecidableEq

/-- `generateEnhancementRecommendations`: starting from all-null steps and an
empty priority list, conditionally fill each step and push its name
(part_007 lines 122–161).  `2`, `3/2`, `1 : ℚ` are the source's `2.0`,
`1.5`, `1.0`; the source's detail subtype ternary has the same string in
both branches and its upscale scale ternary yields 2 in both non-4 branches,
both kept verbatim. -/
def generateEnhancementRecommendations (scores : Scores) : Recommendations :=
  let r : Recommendations := { tone := none, detail := none, upscale := none, priority := [] }
  let r := if scores.tone < 80 then
      { r with
        tone := some { enabled := true
                       type := if scores.tone < 50 then "night" else "general"
                       intensity := if scores.tone < 40 then 2
                         else if scores.tone < 60 then 3/2 else 1 }
        priority := r.priority ++ ["tone"] }
    else r
  let r := if scores.detail < 80 then
      { r with
        detail := some { enabled := true
                         type := if scores.detail < 50 then "general" else "general"
                         strength := if scores.detail < 40 then 3
                           else if scores.detail < 60 then 2 else 1 }
        priority := r.priority ++ ["detail"] }
    else r
  let r := if scores.resolution < 70 then
      { r with
        upscale := some { enabled := true
                          scale := if scores.resolution < 40 then 4
                            else if scores.resolution < 60 then 2 else 2
                          model := "real-esrgan" }
        priority := r.priority ++ ["upscale"] }
    else r
  r

/-- Whether the named step is present and enabled in a plan (the dynamic
`recommendations[name].enabled` read, false on an absent step). -/
def stepEnabledB (r : Recommendations) (name : String) : Bool :=
  if name = "tone" then (r.tone.map (·.enabled)).getD false
  else if name = "detail" then (r.detail.map (·.enabled)).getD false
  else if name = "upscale" then (r.upscale.map (·.enabled)).getD false
  else false

/-! ## Image validation

The two forks of `validateImageData` in `src/shared/api-handlers.mjs`.
The JavaScript falsiness test `!imageBase64` is an emptiness test on the
string input, and each regex is an alternation of literal prefixes. -/

/-- `validateImageData`, ES-module fork (api-handlers.mjs lines 25–37):
rejects an empty payload, then requires the anchored case-sensitive prefix
`data:image/(jpeg|jpg|png|webp);base64,`. -/
def validateImageData (imageBase64 : String) : Except String Bool :=
  if sIsEmpty imageBase64 then
    .error "缺少图像数据，请提供base64编码的图像数据"
  else if ["jpeg", "jpg", "png", "webp"].any
      (fun t => sStartsWith ("data:image/" ++ t ++ ";base64,") imageBase64) then
    .ok true
  else
    .error "图像格式不支持，请使用JPG、PNG或WEBP格式"

/-- The CommonJS fork's looser test: case-insensitive prefix
`data:image/(jpeg|jpg|png|webp|gif|bmp|tiff)` (no `;base64,` required). -/
def cjsImageTypeB (imageBase64 : String) : Bool :=
  ["jpeg", "jpg", "png", "webp", "gif", "bmp", "tiff"].any
    (fun t => isPrefixOfB (lcList ("data:image/" ++ t)) (lcList imageBase64))

/-- `validateImageData`, CommonJS fork (api-handlers.mjs lines 532–552):
rejects an empty payload; accepts a payload matching the loose image-type
regex; otherwise accepts any payload that does not start with `data:`
(treated as raw base64 with a default prefix); otherwise rejects. -/
def validateImageDataCjs (imageBase64 : String) : Except String Bool :=
  if sIsEmpty imageBase64 then
    .error "缺少图像数据，请提供base64编码的图像数据"
  else if cjsImageTypeB imageBase64 then
    .ok true
  else if !(sStartsWith "data:" imageBase64) then
    .ok true
  else
    .error "图像格式不支持，请使用JPG、PNG或WEBP格式"

/-! ## Basic analyzers

`analyzeImageBasic`, both forks, and the `calculateBasicScore` helpers. -/

/-- A regex word character `\w`: letters, digits, underscore. -/
def isWordChar (c : Char) : Bool := c.isAlphanum || c == '_'

/-- The capture of `^data:image\/(\w+);base64,` (ES fork, line 169), or
`none` when the payload does not match. -/
def extractFormatEsm (s : String) : Option String :=
  let rest := s.toList.drop 11
  let w := rest.takeWhile isWordChar
  if isPrefixOfB "data:image/".toList s.toList && !w.isEmpty &&
      isPrefixOfB ";base64,".toList (rest.drop w.length) then
    some (String.mk w)
  else none

/-- The informational `quality_factors` buckets. -/
structure QualityFactors where
  resolution : String
  file_size : String
  deriving Repr, DecidableEq

/-- The ES fork's analysis object `{format, size, quality_factors}`. -/
structure EsmAnalysis where
  format : String
  size : ℤ
  quality_factors : QualityFactors
  deriving Repr, DecidableEq

/-- `analyzeImageBasic`, ES-module fork (api-handlers.mjs lines 167–187):
format from the data-URL capture (else `unknown`), approximate byte size
`Math.round(base64Data.length * 3 / 4)` where `base64Data` is the text after
the first comma (`split(',')[1] || ''`), plus bucket labels. -/
def analyzeImageBasicEsm (imageBase64 : String) : EsmAnalysis :=
  let format := (extractFormatEsm imageBase64).getD "unknown"
  let base64Data := ((imageBase64.splitOn ",").drop 1).headD ""
  let sizeBytes : ℤ := jsRound ((base64Data.length * 3 : ℚ) / 4)
  { format := format
    size := sizeBytes
    quality_factors :=
      { resolution := if sizeBytes > 100000 then "high"
          else if sizeBytes > 50000 then "medium" else "low"
        file_size := if sizeBytes > 500000 then "large"
          else if sizeBytes > 100000 then "medium" else "small" } }

/-- `calculateBasicScore`, ES-module fork (api-handlers.mjs lines 194–222):
base 3.0, bucket and format adjustments, result clamped to [1.0, 5.0] after
rounding to one decimal (`3/10` is the source's `0.3`, `1/5` its `0.2`). -/
def calculateBasicScoreEsm (analysis : EsmAnalysis) : ℚ :=
  let score : ℚ := 3
  let score := if analysis.quality_factors.resolution = "high" then score + 1
    else if analysis.quality_factors.resolution = "low" then score - 1/2 else score
  let score := if analysis.quality_factors.file_size = "large" then score + 1/2
    else if analysis.quality_factors.file_size = "small" then score - 3/10 else score
  let score := if analysis.format = "png" then score + 3/10
    else if analysis.format = "webp" then score + 1/5
    else if analysis.format = "jpeg" ∨ analysis.format = "jpg" then score - 1/5
    else score
  max 1 (min 5 ((jsRound (score * 10) : ℚ) / 10))

/-- The ES fork's analyze response (wall-clock fields omitted).  Note that
this object carries neither a `quality_issues` nor an `image_info` property. -/
structure AnalyzeResponseEsm where
  success : Bool
  score : ℚ
  analysis : EsmAnalysis
  message : String
  deriving Repr, DecidableEq

/-- Error rewriting in `processAnalyze`'s catch block (both forks). -/
def wrapAnalyzeError (e : String) : String :=
  if sIncludes "rate_limit" e then "请求频率过高，请稍后再试"
  else if sIncludes "authentication" e then "API认证失败，请检查REPLICATE_API_TOKEN配置"
  else "图像质量分析失败: " ++ e

/-- `processAnalyze`, ES-module fork (api-handlers.mjs lines 230–269):
validate, analyze, score.  The `apiToken` argument of the source is unused
(`暂时未使用`) and omitted here. -/
def processAnalyzeEsm (imageBase64 : String) : Except String AnalyzeResponseEsm :=
  match validateImageData imageBase64 with
  | .error e => .error (wrapAnalyzeError e)
  | .ok _ =>
    let analysis := analyzeImageBasicEsm imageBase64
    let score := calculateBasicScoreEsm analysis
    .ok { success := true, score := score, analysis := analysis,
          message := "图像质量分析完成（基础模式）" }

/-- A lower-case letter, for the CommonJS fork's `[a-z]+`. -/
def isLowerAlpha (c : Char) : Bool := 'a' ≤ c && c ≤ 'z'

/-- One replacement of `^data:image\/[a-z]+;base64,` by the empty string
(`imageBase64.replace(...)` in the CommonJS `analyzeImageBasic`): the
original character list when the anchored pattern does not match. -/
def stripDataUrlHeader (cs : List Char) : List Char :=
  let rest := cs.drop 11
  let letters := rest.takeWhile isLowerAlpha
  if isPrefixOfB "data:image/".toList cs && !letters.isEmpty &&
      isPrefixOfB ";base64,".toList (rest.drop letters.length) then
    rest.drop (letters.length + 8)
  else cs

/-- A base64-alphabet character (`A–Z`, `a–z`, `0–9`, `+`, `/`). -/
def isBase64Char (c : Char) : Bool := c.isAlphanum || c == '+' || c == '/'

/-- Decoded byte count, `Buffer.from(base64Data, 'base64').length`: Node's
decoder ignores padding and non-alphabet characters and produces
`⌊3·n/4⌋` bytes from `n` alphabet characters. -/
def decodedByteLen (cs : List Char) : ℕ :=
  ((cs.filter isBase64Char).length * 3) / 4

/-- The CommonJS fork's image info `{format, size, resolution}` where
`resolution` is the estimated pixel count. -/
structure CjsImageInfo where
  format : String
  size : ℕ
  resolution : ℕ
  deriving Repr, DecidableEq

/-- `analyzeImageBasic`, CommonJS fork (api-handlers.mjs lines 679–710):
format by substring search (`includes`), byte size of the decoded payload,
and the estimated pixel count `size × 15` for jpeg, `size × 4` for png,
`size × 8` otherwise. -/
def analyzeImageBasicCjs (imageBase64 : String) : CjsImageInfo :=
  let size := decodedByteLen (stripDataUrlHeader imageBase64.toList)
  let format :=
    if sIncludes "data:image/jpeg" imageBase64 then "jpeg"
    else if sIncludes "data:image/png" imageBase64 then "png"
    else if sIncludes "data:image/webp" imageBase64 then "webp"
    else "unknown"
  let estimatedResolution :=
    if format = "jpeg" then size * 15
    else if format = "png" then size * 4
    else size * 8
  { format := format, size := size, resolution := estimatedResolution }

/-- `calculateBasicScore`, CommonJS fork (api-handlers.mjs lines 717–735):
base 5.0 with resolution/size/format adjustments, clamped to [1.0, 10.0]
after rounding to one decimal. -/
def calculateBasicScoreCjs (imageInfo : CjsImageInfo) : ℚ :=
  let score : ℚ := 5
  let score := if imageInfo.resolution ≥ 2000000 then score + 2
    else if imageInfo.resolution ≥ 1000000 then score + 1
    else if imageInfo.resolution < 300000 then score - 1 else score
  let score := if imageInfo.size > 1000000 then score + 1/2
    else if imageInfo.size < 50000 then score - 1/2 else score
  let score := if imageInfo.format = "png" then score + 3/10
    else if imageInfo.format = "webp" then score + 1/5 else score
  max 1 (min 10 ((jsRound (score * 10) : ℚ) / 10))

/-- The CommonJS fork's `analysis` response field. -/
structure CjsAnalysis where
  format : String
  size : ℕ
  quality_factors : QualityFactors
  deriving Repr, DecidableEq

/-- The CommonJS fork's analyze response (wall-clock fields omitted).  As in
the ES fork, there is no `quality_issues` and no `image_info` property. -/
structure AnalyzeResponseCjs where
  success : Bool
  score : ℚ
  analysis : CjsAnalysis
  message : String
  deriving Repr, DecidableEq

/-- `processAnalyze`, CommonJS fork (api-handlers.mjs lines 743–792). -/
def processAnalyzeCjs (imageBase64 : String) : Except String AnalyzeResponseCjs :=
  match validateImageDataCjs imageBase64 with
  | .error e => .error (wrapAnalyzeError e)
  | .ok _ =>
    let imageInfo := analyzeImageBasicCjs imageBase64
    let score := calculateBasicScoreCjs imageInfo
    .ok { success := true
          score := score
          analysis :=
            { format := imageInfo.format
              size := imageInfo.size
              quality_factors :=
                { resolution := if imageInfo.resolution ≥ 1000000 then "high"
                    else if imageInfo.resolution ≥ 500000 then "medium" else "low"
                  file_size := if imageInfo.size > 500000 then "large"
                    else if imageInfo.size > 100000 then "medium" else "small" } }
          message := "图像质量分析完成（基础模式）" }

/-! ## The analyze flows feeding the scorer

`analyzeImageQuality` (part_007 lines 28–43) passes the ENTIRE
`processAnalyze` response object to `calculateQualityScores`; the
local-server `/api/autopilot-analyze` route (local-server.cjs lines
458–505) does the same with the CommonJS response.  Neither response type
carries a `quality_issues` or an `image_info` property, so both dynamic
property reads performed by the scorer yield `undefined`. -/

/-- The scorer's view of the ES-fork analyze response: both properties the
scorer reads are absent from `AnalyzeResponseEsm`. -/
def analyzeResponseScorerView (_ : AnalyzeResponseEsm) : ScorerInput :=
  { quality_issues := none, image_info := none }

/-- The scorer's view of the CommonJS-fork analyze response: both properties
the scorer reads are absent from `AnalyzeResponseCjs`. -/
def cjsResponseScorerView (_ : AnalyzeResponseCjs) : ScorerInput :=
  { quality_issues := none, image_info := none }

/-- The result of `analyzeImageQuality` in part_007. -/
structure AnalyzeQualityResult where
  scores : Scores
  recommendations : Recommendations
  basicAnalysis : AnalyzeResponseEsm
  deriving Repr, DecidableEq

/-- `analyzeImageQuality` (part_007 lines 28–43): basic analysis via the
shared `processAnalyze`, then scoring, then recommendations. -/
def analyzeImageQuality (imageBase64 : String) : Except String AnalyzeQualityResult :=
  match processAnalyzeEsm imageBase64 with
  | .error e => .error e
  | .ok basicAnalysis =>
    let scores := calculateQualityScores (analyzeResponseScorerView basicAnalysis)
    let recommendations := generateEnhancementRecommendations scores
    .ok { scores := scores, recommendations := recommendations,
          basicAnalysis := basicAnalysis }

/-- The payload of the local `/api/autopilot-analyze` response. -/
structure LocalAutopilotAnalysis where
  scores : Scores
  recommendations : Recommendations
  deriving Repr, DecidableEq

/-- The local-server `/api/autopilot-analyze` flow (local-server.cjs lines
458–505): CommonJS `processAnalyze`, then scoring, then recommendations. -/
def localAutopilotAnalyze (imageBase64 : String) : Except String LocalAutopilotAnalysis :=
  match processAnalyzeCjs imageBase64 with
  | .error e => .error e
  | .ok basicAnalysis =>
    let scores := calculateQualityScores (cjsResponseScorerView basicAnalysis)
    .ok { scores := scores
          recommendations := generateEnhancementRecommendations scores }

/-- Concrete 40,000-byte jpeg payload: the data-URL header followed by
53,334 base64-alphabet characters, which decode to ⌊53334·3/4⌋ = 40,000
bytes. -/
def jpegPayload40k : String :=
  ⟨"data:image/jpeg;base64,".toList ++ List.replicate 53334 'A'⟩


/-! ## Provider boundary and step processors

The CommonJS fork's `processToneEnhance` / `processDetailEnhance` /
`processUpscale` (api-handlers.mjs lines 832–922, 932–1026, 617–672).  A
`Runners` value models the external `replicate.run` calls together with
their array/string output extraction: each runner yields the transformed
image URL or the message of a thrown provider error (including the
`模型返回了无效的输出格式` case for a malformed output shape). -/

/-- `tokenPresent t` is the truthiness of the JavaScript `apiToken` value
(`none` models `undefined`; the empty string is also falsy). -/
def tokenPresent : Option String → Bool
  | none => false
  | some s => !(sIsEmpty s)

/-- `createReplicateClient` (api-handlers.mjs lines 519–525): throws
`REPLICATE_API_TOKEN is required` on a falsy token, otherwise constructs the
client. -/
def createReplicateClient (apiToken : Option String) : Except String Unit :=
  if tokenPresent apiToken then .ok ()
  else .error "REPLICATE_API_TOKEN is required"

/-- The catch-block rewriting shared by the three step processors: known
provider error kinds are replaced by fixed messages, anything else is
prefixed by the step's failure label. -/
def rewriteKnownErrors (wrapMsg e : String) : String :=
  if sIncludes "insufficient_quota" e then "API配额不足，请检查Replicate账户余额"
  else if sIncludes "rate_limit" e then "请求频率过高，请稍后再试"
  else if sIncludes "authentication" e then "API认证失败，请检查REPLICATE_API_TOKEN配置"
  else wrapMsg ++ ": " ++ e

/-- Apply a step processor's catch block to its body's outcome. -/
def wrapStepError (wrapMsg : String) : Except String String → Except String String
  | .ok v => .ok v
  | .error e => .error (rewriteKnownErrors wrapMsg e)

/-- The MAXIM model variant chosen by `processToneEnhance` from the enhance
type (night → low-light, landscape/hdr/general/default → retouching). -/
def toneModelType (enhanceType : String) : String :=
  if enhanceType = "night" then "Image Enhancement (Low-light)"
  else if enhanceType = "landscape" ∨ enhanceType = "hdr" then
    "Image Enhancement (Retouching)"
  else "Image Enhancement (Retouching)"

/-- The MAXIM model variant chosen by `processDetailEnhance` (hair/plant →
denoising, text → deblurring, general/default → denoising). -/
def detailModelType (enhanceType : String) : String :=
  if enhanceType = "hair" ∨ enhanceType = "plant" then "Image Denoising"
  else if enhanceType = "text" then "Image Deblurring (RealBlur_R)"
  else "Image Denoising"

/-- The model configuration built by `buildModelConfig` (CommonJS fork,
api-handlers.mjs lines 584–606). -/
inductive UpscaleModelConfig
  | auraSr (image : String) (upscale_factor : ℤ)
  | realEsrgan (image : String) (scale : ℤ) (face_enhance : Bool)
  deriving Repr, DecidableEq

/-- `buildModelConfig` (CommonJS fork): Aura SR v2 input or Real-ESRGAN
input. -/
def buildModelConfig (model imageBase64 : String) (scale : ℤ)
    (face_enhance : Bool) : UpscaleModelConfig :=
  if model = "aura-sr-v2" then .auraSr imageBase64 scale
  else .realEsrgan imageBase64 scale face_enhance

/-- `validateUpscaleParams` (CommonJS fork, api-handlers.mjs lines
560–574). -/
def validateUpscaleParams (model : String) (scale : ℤ) : Except String Bool :=
  if !(["real-esrgan", "aura-sr-v2"].contains model) then
    .error ("不支持的模型类型: " ++ model ++ "。支持的模型: real-esrgan, aura-sr-v2")
  else if !([2, 4, 8].contains scale) then
    .error ("不支持的缩放倍数: " ++ toString scale ++ "。支持的倍数: 2, 4, 8")
  else .ok true

/-- The external provider calls, one runner per transformation family. -/
structure Runners where
  toneRun : String → String → Except String String
  detailRun : String → String → Except String String
  upscaleRun : UpscaleModelConfig → Except String String

/-- Body of `processToneEnhance` (CommonJS fork, lines 832–905, before the
catch block): validate the image, the enhance type and the intensity range
0.1–2.0, require the credential, run MAXIM, reject an empty output. -/
def processToneEnhanceBody (R : Runners) (imageBase64 enhanceType : String)
    (intensity : ℚ) (apiToken : Option String) : Except String String :=
  match validateImageDataCjs imageBase64 with
  | .error e => .error e
  | .ok _ =>
    if !(["general", "night", "landscape", "hdr"].contains enhanceType) then
      .error ("不支持的增强类型: " ++ enhanceType ++
        "。支持的类型: general, night, landscape, hdr")
    else if intensity < mkRat 1 10 ∨ 2 < intensity then
      .error "增强强度必须在0.1-2.0之间"
    else match createReplicateClient apiToken with
      | .error e => .error e
      | .ok _ =>
        match R.toneRun imageBase64 (toneModelType enhanceType) with
        | .error e => .error e
        | .ok url => if sIsEmpty url then .error "模型返回了空结果" else .ok url

/-- `processToneEnhance` (CommonJS fork): body plus catch-block rewriting. -/
def processToneEnhance (R : Runners) (imageBase64 enhanceType : String)
    (intensity : ℚ) (apiToken : Option String) : Except String String :=
  wrapStepError "影调增强处理失败"
    (processToneEnhanceBody R imageBase64 enhanceType intensity apiToken)

/-- Body of `processDetailEnhance` (CommonJS fork, lines 932–1009): validate
the image, the enhance type and the strength range 1–3, require the
credential, run MAXIM, reject an empty output. -/
def processDetailEnhanceBody (R : Runners) (imageBase64 enhanceType : String)
    (strength : ℤ) (apiToken : Option String) : Except String String :=
  match validateImageDataCjs imageBase64 with
  | .error e => .error e
  | .ok _ =>
    if !(["hair", "plant", "text", "general"].contains enhanceType) then
      .error ("不支持的增强类型: " ++ enhanceType ++
        "。支持的类型: hair, plant, text, general")
    else if strength < 1 ∨ 3 < strength then
      .error "增强强度必须在1-3之间"
    else match createReplicateClient apiToken with
      | .error e => .error e
      | .ok _ =>
        match R.detailRun imageBase64 (detailModelType enhanceType) with
        | .error e => .error e
        | .ok url => if sIsEmpty url then .error "模型返回了空结果" else .ok url

/-- `processDetailEnhance` (CommonJS fork): body plus catch-block
rewriting. -/
def processDetailEnhance (R : Runners) (imageBase64 enhanceType : String)
    (strength : ℤ) (apiToken : Option String) : Except String String :=
  wrapStepError "细节增强处理失败"
    (processDetailEnhanceBody R imageBase64 enhanceType strength apiToken)

/-- Body of `processUpscale` (CommonJS fork, lines 617–655): validate the
image and the model/scale parameters, require the credential, run the
upscale model, reject an empty output. -/
def processUpscaleBody (R : Runners) (imageBase64 : String) (scale : ℤ)
    (face_enhance : Bool) (model : String) (apiToken : Option String) :
    Except String String :=
  match validateImageDataCjs imageBase64 with
  | .error e => .error e
  | .ok _ =>
    match validateUpscaleParams model scale with
    | .error e => .error e
    | .ok _ =>
      match createReplicateClient apiToken with
      | .error e => .error e
      | .ok _ =>
        match R.upscaleRun (buildModelConfig model imageBase64 scale face_enhance) with
        | .error e => .error e
        | .ok url =>
          if sIsEmpty url then .error "超分处理失败：模型返回空结果" else .ok url

/-- `processUpscale` (CommonJS fork): body plus catch-block rewriting. -/
def processUpscale (R : Runners) (imageBase64 : String) (scale : ℤ)
    (face_enhance : Bool) (model : String) (apiToken : Option String) :
    Except String String :=
  wrapStepError "图像超分处理失败"
    (processUpscaleBody R imageBase64 scale face_enhance model apiToken)

/-! ## Enhancement orchestrator

`processAutopilotEnhance` (api-handlers.mjs lines 1035–1145). -/

/-- One entry of `results.steps` (the echoed `config` object and
`processing_time_ms` are not modelled). -/
structure StepRecord where
  type : String
  result : Option String
  error : Option String
  success : Bool
  deriving Repr, DecidableEq

/-- The orchestrator's `results` object. -/
structure PipelineResults where
  original : String
  steps : List StepRecord
  final : String
  deriving Repr, DecidableEq

/-- The orchestrator's return value (wall-clock fields omitted). -/
structure AutopilotResponse where
  success : Bool
  results : PipelineResults
  total_steps : ℕ
  successful_steps : ℕ
  deriving Repr, DecidableEq

/-- The provider call made for one `priority` entry, if any: in each loop
iteration the source runs the branch whose step name matches AND whose
configuration is present with a truthy `enabled` flag (`recommendations.X?.enabled`);
an unknown name or a disabled/absent configuration makes the iteration a
no-op.  `processUpscale` is called with `face_enhance = true` (line 1096). -/
def effectiveCall (R : Runners) (apiToken : Option String)
    (recs : Recommendations) (currentImage step : String) :
    Option (Except String String) :=
  if step = "tone" then
    match recs.tone with
    | some c =>
      if c.enabled then
        some (processToneEnhance R currentImage c.type c.intensity apiToken)
      else none
    | none => none
  else if step = "detail" then
    match recs.detail with
    | some c =>
      if c.enabled then
        some (processDetailEnhance R currentImage c.type c.strength apiToken)
      else none
    | none => none
  else if step = "upscale" then
    match recs.upscale with
    | some c =>
      if c.enabled then
        some (processUpscale R currentImage c.scale true c.model apiToken)
      else none
    | none => none
  else none

/-- The orchestrator's loop over `recommendations.priority`: on success the
step's output becomes `currentImage` and a successful StepRecord is pushed;
on a thrown step error a failed StepRecord carrying the message is pushed
and `currentImage` is left unchanged; in both cases the remaining steps are
processed.  Returns the accumulated `steps` list and the final
`currentImage`. -/
def runSteps (R : Runners) (apiToken : Option String) (recs : Recommendations) :
    List String → String → List StepRecord × String
  | [], currentImage => ([], currentImage)
  | step :: rest, currentImage =>
    match effectiveCall R apiToken recs currentImage step with
    | none => runSteps R apiToken recs rest currentImage
    | some (.ok img) =>
      (⟨step, some img, none, true⟩ :: (runSteps R apiToken recs rest img).1,
        (runSteps R apiToken recs rest img).2)
    | some (.error e) =>
      (⟨step, none, some e, false⟩ ::
          (runSteps R apiToken recs rest currentImage).1,
        (runSteps R apiToken recs rest currentImage).2)

/-- `processAutopilotEnhance` (api-handlers.mjs lines 1035–1145):
`currentImage` starts at the original image, the loop runs over `priority`,
and `results.final` is the last value of `currentImage`. -/
def processAutopilotEnhance (R : Runners) (imageBase64 : String)
    (recs : Recommendations) (apiToken : Option String) : AutopilotResponse :=
  let r := runSteps R apiToken recs recs.priority imageBase64
  { success := true
    results := { original := imageBase64, steps := r.1, final := r.2 }
    total_steps := r.1.length
    successful_steps := (r.1.filter (·.success)).length }

/-- The output of the most recent successful step, or the fallback when no
step succeeded: a left fold over the step records in execution order. -/
def lastSuccessOutput (steps : List StepRecord) (original : String) : String :=
  steps.foldl (fun acc r => if r.success then r.result.getD acc else acc) original

/-- The Vercel `/api/autopilot-enhance` handler's request checks
(src/api/autopilot-enhance.ts lines 62–76): reject when the environment
credential is absent, then when `imageBase64` is falsy, then when
`recommendations` is absent, and only then invoke the orchestrator. -/
def autopilotEnhanceHandler (R : Runners) (envToken : Option String)
    (imageBase64 : Option String) (recommendations : Option Recommendations) :
    Except String AutopilotResponse :=
  if !(tokenPresent envToken) then .error "REPLICATE_API_TOKEN未配置"
  else match imageBase64 with
    | none => .error "缺少图像数据"
    | some img =>
      if sIsEmpty img then .error "缺少图像数据"
      else match recommendations with
        | none => .error "缺少增强建议配置"
        | some recs => .ok (processAutopilotEnhance R img recs envToken)

/-! ## Concrete exemplar inputs -/

/-- Runners for the spec's partial-failure scenario: the tone provider
throws, the detail and upscale providers succeed. -/
def demoRunners : Runners :=
  { toneRun := fun _ _ => .error "tone boom"
    detailRun := fun _ _ => .ok "https://detail.png"
    upscaleRun := fun _ => .ok "https://upscale.png" }

/-- A plan with all three steps enabled in the standard order. -/
def demoPlan : Recommendations :=
  { tone := some { enabled := true, type := "general", intensity := 1 }
    detail := some { enabled := true, type := "general", strength := 1 }
    upscale := some { enabled := true, scale := 2, model := "real-esrgan" }
    priority := ["tone", "detail", "upscale"] }

/-- A small valid png payload. -/
def demoImage : String := "data:image/png;base64,AAAA"

/-! ## Helper lemmas -/

/-- Closed form of the planner output. -/
lemma generateEnhancementRecommendations_eq (s : Scores) :
    generateEnhancementRecommendations s =
      { tone := if s.tone < 80 then
            some { enabled := true
                   type := if s.tone < 50 then "night" else "general"
                   intensity := if s.tone < 40 then 2
                     else if s.tone < 60 then 3/2 else 1 }
          else none
        detail := if s.detail < 80 then
            some { enabled := true
                   type := "general"
                   strength := if s.detail < 40 then 3
                     else if s.detail < 60 then 2 else 1 }
          else none
        upscale := if s.resolution < 70 then
            some { enabled := true
                   scale := if s.resolution < 40 then 4 else 2
                   model := "real-esrgan" }
          else none
        priority := (if s.tone < 80 then ["tone"] else []) ++
          (if s.detail < 80 then ["detail"] else []) ++
          (if s.resolution < 70 then ["upscale"] else []) } := by
  by_cases ht : s.tone < 80 <;> by_cases hd : s.detail < 80 <;>
    by_cases hr : s.resolution < 70 <;>
    simp [generateEnhancementRecommendations, ht, hd, hr]

/-- Clamping to [0, 100] lands in [0, 100]. -/
lemma clamp100_bounds (x : ℤ) : 0 ≤ max 0 (min 100 x) ∧ max 0 (min 100 x) ≤ 100 :=
  ⟨le_max_left 0 _, max_le (by norm_num) (min_le_left 100 x)⟩

/-- `jsRound` maps [0, 100] into [0, 100]. -/
lemma jsRound_bounds (q : ℚ) (h0 : 0 ≤ q) (h100 : q ≤ 100) :
    0 ≤ jsRound q ∧ jsRound q ≤ 100 := by
  unfold jsRound
  constructor
  · exact Int.le_floor.mpr (by push_cast; linarith)
  · have h : (⌊q + 1/2⌋ : ℤ) < 101 := Int.floor_lt.mpr (by push_cast; linarith)
    omega

/-- Scoring the field-less analyze response: tone 70, detail 75,
resolution 80, overall 75. -/
lemma calculateQualityScores_none :
    calculateQualityScores ⟨none, none⟩ = ⟨70, 75, 80, 75⟩ := by
  have h70 : calculateToneScore ⟨none, none⟩ = 70 := by decide
  have h75 : calculateDetailScore ⟨none, none⟩ = 75 := by decide
  have h80 : calculateResolutionScore ⟨none, none⟩ = 80 := by decide
  unfold calculateQualityScores jsRound
  rw [h70, h75, h80]
  simp only [Scores.mk.injEq, true_and, and_true]
  rw [Int.floor_eq_iff]
  norm_num

/-- The plan generated from the constant scores (70, 75, 80, 75). -/
lemma generateEnhancementRecommendations_const :
    generateEnhancementRecommendations ⟨70, 75, 80, 75⟩ =
      ⟨some ⟨true, "general", 1⟩, some ⟨true, "general", 1⟩, none,
        ["tone", "detail"]⟩ := by
  decide

/-! ## Claim theorems -/

/-- Claim C2: for every `DimensionScores` input, the planner enables the tone
step iff `tone < 80` with subtype `night` iff `tone < 50` (else `general`)
and intensity 2.0 if `tone < 40`, else 1.5 if `tone < 60`, else 1.0; enables
the detail step iff `detail < 80` with strength 3 if `detail < 40`, else 2
if `detail < 60`, else 1; and enables the upscale step iff
`resolution < 70` with scale 4 if `resolution < 40`, else 2. -/
theorem claim2_planner_thresholds (s : Scores) :
    (generateEnhancementRecommendations s).tone =
      (if s.tone < 80 then
        some { enabled := true
               type := if s.tone < 50 then "night" else "general"
               intensity := if s.tone < 40 then 2
                 else if s.tone < 60 then 3/2 else 1 }
      else none) ∧
    (generateEnhancementRecommendations s).detail =
      (if s.detail < 80 then
        some { enabled := true
               type := "general"
               strength := if s.detail < 40 then 3
                 else if s.detail < 60 then 2 else 1 }
      else none) ∧
    (generateEnhancementRecommendations s).upscale =
      (if s.resolution < 70 then
        some { enabled := true
               scale := if s.resolution < 40 then 4 else 2
               model := "real-esrgan" }
      else none) := by
  rw [generateEnhancementRecommendations_eq]
  exact ⟨rfl, rfl, rfl⟩

/-- Claim C7: every plan produced by the planner lists in `priority` exactly
the names of the enabled steps, in the fixed order tone, detail, upscale;
in particular every name in `priority` corresponds to an enabled step and a
step that is not enabled never appears in `priority`. -/
theorem claim7_priority_invariant (s : Scores) :
    (generateEnhancementRecommendations s).priority =
      (["tone", "detail", "upscale"].filter
        (stepEnabledB (generateEnhancementRecommendations s))) ∧
    ∀ name ∈ (generateEnhancementRecommendations s).priority,
      stepEnabledB (generateEnhancementRecommendations s) name = true := by
  rw [generateEnhancementRecommendations_eq]
  by_cases ht : s.tone < 80 <;> by_cases hd : s.detail < 80 <;>
    by_cases hr : s.resolution < 70 <;>
    simp [stepEnabledB, ht, hd, hr]

/-- Witness for C7 at concrete scores (55, 65, 50): all three steps enabled,
`priority = ["tone", "detail", "upscale"]`, each entry an enabled step. -/
theorem claim7_priority_invariant_witness :
    (generateEnhancementRecommendations ⟨55, 65, 50, 57⟩).priority =
      (["tone", "detail", "upscale"].filter
        (stepEnabledB (generateEnhancementRecommendations ⟨55, 65, 50, 57⟩))) ∧
    stepEnabledB (generateEnhancementRecommendations ⟨55, 65, 50, 57⟩) "tone" = true := by
  refine ⟨(claim7_priority_invariant ⟨55, 65, 50, 57⟩).1, ?_⟩
  exact (claim7_priority_invariant ⟨55, 65, 50, 57⟩).2 "tone" (by decide)

/-- Claim C10: for two score inputs differing only in `tone`, both with the
tone step enabled, a lower tone score never gets a lower planned
intensity. -/
theorem claim10_intensity_monotone (s : Scores) (t1 t2 : ℤ) (c1 c2 : ToneRec)
    (hlt : t1 < t2)
    (h1 : (generateEnhancementRecommendations { s with tone := t1 }).tone = some c1)
    (h2 : (generateEnhancementRecommendations { s with tone := t2 }).tone = some c2) :
    c2.intensity ≤ c1.intensity := by
  rw [generateEnhancementRecommendations_eq] at h1 h2
  simp only at h1 h2
  split at h1
  · split at h2
    · obtain rfl : c1 = _ := (Option.some.injEq _ _).mp h1.symm
      obtain rfl : c2 = _ := (Option.some.injEq _ _).mp h2.symm
      simp only
      split_ifs <;> first | omega | norm_num
    · exact absurd h2 (by simp)
  · exact absurd h1 (by simp)

/-- Witness for C10: tone scores 30 < 70 with both plans tone-enabled yield
intensities 2.0 ≥ 1.0. -/
theorem claim10_intensity_monotone_witness :
    ((1 : ℚ) ≤ 2) ∧ (30 : ℤ) < 70 ∧
    (generateEnhancementRecommendations ⟨30, 75, 80, 62⟩).tone =
      some ⟨true, "night", 2⟩ ∧
    (generateEnhancementRecommendations ⟨70, 75, 80, 75⟩).tone =
      some ⟨true, "general", 1⟩ :=
  ⟨claim10_intensity_monotone ⟨70, 75, 80, 62⟩ 30 70 ⟨true, "night", 2⟩
      ⟨true, "general", 1⟩ (by decide) (by decide) (by decide),
    by decide, by decide, by decide⟩

/-- Claim C5: the resolution dimension score starts at base 80 and receives
exactly one penalty, the largest applicable (−30 below 0.5 MP, else −20
below 1 MP, else −10 below 2 MP, else none); with at least 2,000,000
estimated pixels and no issue tags the score is exactly 80. -/
theorem claim5_resolution_penalty (analysis : ScorerInput) (w h : ℕ)
    (hinfo : analysis.image_info = some ⟨w, h⟩)
    (_htags : analysis.quality_issues = none) :
    calculateResolutionScore analysis =
      80 - (if (w : ℤ) * h < 500000 then 30
        else if (w : ℤ) * h < 1000000 then 20
        else if (w : ℤ) * h < 2000000 then 10 else 0) ∧
    (2000000 ≤ (w : ℤ) * h → calculateResolutionScore analysis = 80) := by
  unfold calculateResolutionScore rawResolutionScore
  rw [hinfo]
  dsimp only
  constructor
  · split_ifs <;> norm_num
  · intro h2M
    have h1 : ¬((w : ℤ) * h < 500000) := by linarith
    have h2 : ¬((w : ℤ) * h < 1000000) := by linarith
    have h3 : ¬((w : ℤ) * h < 2000000) := by linarith
    rw [if_neg h1, if_neg h2, if_neg h3]
    norm_num

/-- Witness for C5 at a 1600×1250 image (2,000,000 pixels, no tags): no
penalty, resolution score 80. -/
theorem claim5_resolution_penalty_witness :
    calculateResolutionScore ⟨none, some ⟨1600, 1250⟩⟩ =
      80 - (if (1600 : ℤ) * 1250 < 500000 then 30
        else if (1600 : ℤ) * 1250 < 1000000 then 20
        else if (1600 : ℤ) * 1250 < 2000000 then 10 else 0) ∧
    calculateResolutionScore ⟨none, some ⟨1600, 1250⟩⟩ = 80 :=
  ⟨(claim5_resolution_penalty ⟨none, some ⟨1600, 1250⟩⟩ 1600 1250 rfl rfl).1,
    (claim5_resolution_penalty ⟨none, some ⟨1600, 1250⟩⟩ 1600 1250 rfl rfl).2
      (by norm_num)⟩

/-- Claim C6: every scorer output has each dimension independently clamped
to [0, 100] before the aggregate is formed, `overall` equal to the rounded
arithmetic mean of the three clamped scores, and all four values in
[0, 100]. -/
theorem claim6_scores_clamped (analysis : ScorerInput) :
    (calculateQualityScores analysis).tone =
      max 0 (min 100 (rawToneScore analysis)) ∧
    (calculateQualityScores analysis).detail =
      max 0 (min 100 (rawDetailScore analysis)) ∧
    (calculateQualityScores analysis).resolution =
      max 0 (min 100 (rawResolutionScore analysis)) ∧
    (calculateQualityScores analysis).overall =
      jsRound ((((calculateQualityScores analysis).tone : ℚ) +
        ((calculateQualityScores analysis).detail : ℚ) +
        ((calculateQualityScores analysis).resolution : ℚ)) / 3) ∧
    (0 ≤ (calculateQualityScores analysis).tone ∧
      (calculateQualityScores analysis).tone ≤ 100) ∧
    (0 ≤ (calculateQualityScores analysis).detail ∧
      (calculateQualityScores analysis).detail ≤ 100) ∧
    (0 ≤ (calculateQualityScores analysis).resolution ∧
      (calculateQualityScores analysis).resolution ≤ 100) ∧
    (0 ≤ (calculateQualityScores analysis).overall ∧
      (calculateQualityScores analysis).overall ≤ 100) := by
  have ht : 0 ≤ calculateToneScore analysis ∧ calculateToneScore analysis ≤ 100 :=
    clamp100_bounds (rawToneScore analysis)
  have hd : 0 ≤ calculateDetailScore analysis ∧ calculateDetailScore analysis ≤ 100 :=
    clamp100_bounds (rawDetailScore analysis)
  have hr : 0 ≤ calculateResolutionScore analysis ∧
      calculateResolutionScore analysis ≤ 100 :=
    clamp100_bounds (rawResolutionScore analysis)
  have t0 : (0 : ℚ) ≤ (calculateToneScore analysis : ℚ) := by exact_mod_cast ht.1
  have t1 : (calculateToneScore analysis : ℚ) ≤ 100 := by exact_mod_cast ht.2
  have d0 : (0 : ℚ) ≤ (calculateDetailScore analysis : ℚ) := by exact_mod_cast hd.1
  have d1 : (calculateDetailScore analysis : ℚ) ≤ 100 := by exact_mod_cast hd.2
  have r0 : (0 : ℚ) ≤ (calculateResolutionScore analysis : ℚ) := by exact_mod_cast hr.1
  have r1 : (calculateResolutionScore analysis : ℚ) ≤ 100 := by exact_mod_cast hr.2
  have hmean0 : (0 : ℚ) ≤ ((calculateToneScore analysis : ℚ) +
      (calculateDetailScore analysis : ℚ) +
      (calculateResolutionScore analysis : ℚ)) / 3 := by linarith
  have hmean1 : ((calculateToneScore analysis : ℚ) +
      (calculateDetailScore analysis : ℚ) +
      (calculateResolutionScore analysis : ℚ)) / 3 ≤ 100 := by linarith
  exact ⟨rfl, rfl, rfl, rfl, ht, hd, hr, jsRound_bounds _ hmean0 hmean1⟩

/-- Claim C4: for every payload accepted by validation, the Autopilot
analysis flow `analyzeImageQuality` computes the constant dimension scores
tone 70, detail 75, resolution 80 (overall 75) — the analyze response
carries neither of the properties the scorer reads — and hence always plans
tone (`general`, intensity 1.0) and detail (strength 1), never upscale,
with priority `["tone", "detail"]`. -/
theorem claim4_constant_scores (imageBase64 : String)
    (hv : validateImageData imageBase64 = .ok true) :
    ∃ r, analyzeImageQuality imageBase64 = .ok r ∧
      r.scores = ⟨70, 75, 80, 75⟩ ∧
      r.recommendations =
        ⟨some ⟨true, "general", 1⟩, some ⟨true, "general", 1⟩, none,
          ["tone", "detail"]⟩ := by
  unfold analyzeImageQuality processAnalyzeEsm
  rw [hv]
  refine ⟨_, rfl, ?_, ?_⟩
  · exact calculateQualityScores_none
  · show generateEnhancementRecommendations (calculateQualityScores ⟨none, none⟩) = _
    rw [calculateQualityScores_none, generateEnhancementRecommendations_const]

/-- Witness for C4 at a small jpeg payload. -/
theorem claim4_constant_scores_witness :
    validateImageData "data:image/jpeg;base64,AAAA" = .ok true ∧
    ∃ r, analyzeImageQuality "data:image/jpeg;base64,AAAA" = .ok r ∧
      r.scores = ⟨70, 75, 80, 75⟩ ∧
      r.recommendations =
        ⟨some ⟨true, "general", 1⟩, some ⟨true, "general", 1⟩, none,
          ["tone", "detail"]⟩ :=
  ⟨rfl, claim4_constant_scores "data:image/jpeg;base64,AAAA" rfl⟩

/-- The looser CommonJS validation accepts any jpeg data-URL payload. -/
lemma validateImageDataCjs_jpeg (n : ℕ) :
    validateImageDataCjs ⟨"data:image/jpeg;base64,".toList ++ List.replicate n 'A'⟩ =
      .ok true := rfl

/-- Stripping the data-URL header from the 40k-style payload leaves the
base64 body. -/
lemma stripDataUrlHeader_jpeg (n : ℕ) :
    stripDataUrlHeader
      (String.toList ⟨"data:image/jpeg;base64,".toList ++ List.replicate n 'A'⟩) =
      List.replicate n 'A' := rfl

/-- Decoded byte count of a run of `n` letters `A`. -/
lemma decodedByteLen_replicate (n : ℕ) :
    decodedByteLen (List.replicate n 'A') = n * 3 / 4 := by
  unfold decodedByteLen
  rw [List.filter_replicate]
  simp [isBase64Char, List.length_replicate]

/-- The CommonJS analyzer on the jpeg data-URL payload of `n` base64
characters: jpeg format, `⌊3n/4⌋` bytes, pixel estimate `15·⌊3n/4⌋`. -/
lemma analyzeImageBasicCjs_jpeg (n : ℕ) :
    analyzeImageBasicCjs ⟨"data:image/jpeg;base64,".toList ++ List.replicate n 'A'⟩ =
      ⟨"jpeg", n * 3 / 4, n * 3 / 4 * 15⟩ := by
  unfold analyzeImageBasicCjs
  rw [stripDataUrlHeader_jpeg, decodedByteLen_replicate]
  rfl

/-- The CommonJS analyze flow succeeds on the jpeg data-URL payload. -/
lemma processAnalyzeCjs_jpeg_ok (n : ℕ) :
    ∃ resp, processAnalyzeCjs
      ⟨"data:image/jpeg;base64,".toList ++ List.replicate n 'A'⟩ = .ok resp := by
  unfold processAnalyzeCjs
  rw [validateImageDataCjs_jpeg]
  exact ⟨_, rfl⟩

/-- The local autopilot-analyze flow on the jpeg data-URL payload: constant
scores (70, 75, 80, 75) and the tone+detail plan. -/
lemma localAutopilotAnalyze_jpeg (n : ℕ) :
    ∃ resp, localAutopilotAnalyze
        ⟨"data:image/jpeg;base64,".toList ++ List.replicate n 'A'⟩ = .ok resp ∧
      resp.scores = ⟨70, 75, 80, 75⟩ ∧
      resp.recommendations =
        ⟨some ⟨true, "general", 1⟩, some ⟨true, "general", 1⟩, none,
          ["tone", "detail"]⟩ := by
  unfold localAutopilotAnalyze
  obtain ⟨r, hr⟩ := processAnalyzeCjs_jpeg_ok n
  rw [hr]
  refine ⟨_, rfl, ?_, ?_⟩
  · exact calculateQualityScores_none
  · show generateEnhancementRecommendations (calculateQualityScores ⟨none, none⟩) = _
    rw [calculateQualityScores_none, generateEnhancementRecommendations_const]

/-- Counterexample to claim C3: on the 40,000-byte jpeg payload the analyzer
does estimate 600,000 pixels, but the pipeline scores resolution 80 (not
60), plans no upscale step, and produces priority `["tone", "detail"]` (not
`["tone", "detail", "upscale"]`). -/
theorem claim3_counterexample :
    (analyzeImageBasicCjs jpegPayload40k).size = 40000 ∧
    (analyzeImageBasicCjs jpegPayload40k).resolution = 600000 ∧
    ∃ resp, localAutopilotAnalyze jpegPayload40k = .ok resp ∧
      resp.scores.resolution = 80 ∧
      resp.recommendations.upscale = none ∧
      resp.recommendations.priority = ["tone", "detail"] := by
  unfold jpegPayload40k
  rw [analyzeImageBasicCjs_jpeg]
  refine ⟨by norm_num, by norm_num, ?_⟩
  obtain ⟨resp, hresp, hscores, hrecs⟩ := localAutopilotAnalyze_jpeg 53334
  exact ⟨resp, hresp, by rw [hscores], by rw [hrecs], by rw [hrecs]⟩

/-- Claim C3 as amended: for the 40,000-byte jpeg payload the analyzer
estimates 40000×15 = 600,000 pixels, but the scorer never receives the
estimate (the analyze response carries no `image_info`), so resolution
scores 80; the plan enables tone at intensity 1.0 and detail at strength 1,
does not enable upscale, and priority is `["tone", "detail"]`. -/
theorem claim3_amended :
    (analyzeImageBasicCjs jpegPayload40k).format = "jpeg" ∧
    (analyzeImageBasicCjs jpegPayload40k).size = 40000 ∧
    (analyzeImageBasicCjs jpegPayload40k).resolution = 600000 ∧
    ∃ resp, localAutopilotAnalyze jpegPayload40k = .ok resp ∧
      resp.scores = ⟨70, 75, 80, 75⟩ ∧
      resp.recommendations =
        ⟨some ⟨true, "general", 1⟩, some ⟨true, "general", 1⟩, none,
          ["tone", "detail"]⟩ := by
  unfold jpegPayload40k
  rw [analyzeImageBasicCjs_jpeg]
  exact ⟨rfl, by norm_num, by norm_num, localAutopilotAnalyze_jpeg 53334⟩

/-- Counterexample to claim C8: the ES-module validator REJECTS a payload of
raw base64 bytes with no declared-type prefix, while the CommonJS validator
ACCEPTS a payload whose declared media type (gif) is outside
{jpeg, jpg, png, webp} — so neither implementation satisfies the claimed
combination. -/
theorem claim8_counterexample :
    validateImageData "QUJDRA" =
      .error "图像格式不支持，请使用JPG、PNG或WEBP格式" ∧
    validateImageDataCjs "data:image/gif;base64,R0lGOD" = .ok true :=
  ⟨rfl, rfl⟩

/-- Claim C8 as amended: both validators reject an empty payload; the
ES-module validator accepts exactly the payloads carrying a
`data:image/(jpeg|jpg|png|webp);base64,` prefix (so a prefix-less payload is
rejected); the CommonJS validator accepts exactly the non-empty payloads
that either declare one of jpeg/jpg/png/webp/gif/bmp/tiff (case-insensitive)
or do not start with `data:` at all. -/
theorem claim8_amended :
    validateImageData "" = .error "缺少图像数据，请提供base64编码的图像数据" ∧
    validateImageDataCjs "" = .error "缺少图像数据，请提供base64编码的图像数据" ∧
    (∀ s : String, validateImageData s = .ok true ↔
      (sIsEmpty s = false ∧ ∃ t ∈ ["jpeg", "jpg", "png", "webp"],
        sStartsWith ("data:image/" ++ t ++ ";base64,") s = true)) ∧
    (∀ s : String, validateImageDataCjs s = .ok true ↔
      (sIsEmpty s = false ∧
        ((∃ t ∈ ["jpeg", "jpg", "png", "webp", "gif", "bmp", "tiff"],
            isPrefixOfB (lcList ("data:image/" ++ t)) (lcList s) = true) ∨
          sStartsWith "data:" s = false))) := by
  refine ⟨rfl, rfl, ?_, ?_⟩
  · intro s
    by_cases he : sIsEmpty s = true <;>
      by_cases hm : (["jpeg", "jpg", "png", "webp"].any
        (fun t => sStartsWith ("data:image/" ++ t ++ ";base64,") s)) = true <;>
      simp_all [validateImageData, List.any_eq_true]
  · intro s
    by_cases he : sIsEmpty s = true <;>
      by_cases hm : cjsImageTypeB s = true <;>
      by_cases hd : sStartsWith "data:" s = true <;>
      simp_all [validateImageDataCjs, cjsImageTypeB, List.any_eq_true]

/-- Witness for the amended C8 at concrete payloads. -/
theorem claim8_amended_witness :
    (validateImageDataCjs "QUJDRA" = .ok true ↔
      (sIsEmpty "QUJDRA" = false ∧
        ((∃ t ∈ ["jpeg", "jpg", "png", "webp", "gif", "bmp", "tiff"],
            isPrefixOfB (lcList ("data:image/" ++ t)) (lcList "QUJDRA") = true) ∨
          sStartsWith "data:" "QUJDRA" = false))) ∧
    validateImageData "" = .error "缺少图像数据，请提供base64编码的图像数据" :=
  ⟨claim8_amended.2.2.2 "QUJDRA", claim8_amended.1⟩

/-- The final image of a run is the fold of its step records: each
successful record overwrites the accumulator with its output. -/
lemma runSteps_final (R : Runners) (apiToken : Option String)
    (recs : Recommendations) :
    ∀ (priority : List String) (currentImage : String),
      (runSteps R apiToken recs priority currentImage).2 =
        lastSuccessOutput (runSteps R apiToken recs priority currentImage).1
          currentImage := by
  intro priority
  induction priority with
  | nil => intro cur; rfl
  | cons step rest ih =>
    intro cur
    cases h : effectiveCall R apiToken recs cur step with
    | none =>
      simp only [runSteps, h]
      exact ih cur
    | some r =>
      cases r with
      | ok img =>
        simp only [runSteps, h, lastSuccessOutput, List.foldl_cons]
        simpa [lastSuccessOutput] using ih img
      | error e =>
        simp only [runSteps, h, lastSuccessOutput, List.foldl_cons]
        simpa [lastSuccessOutput] using ih cur

/-- With an absent credential, `processToneEnhance` always throws. -/
lemma processToneEnhance_noToken (R : Runners) (img t : String) (i : ℚ) :
    ∃ e, processToneEnhance R img t i none = .error e := by
  unfold processToneEnhance processToneEnhanceBody
  cases validateImageDataCjs img with
  | error e => exact ⟨_, rfl⟩
  | ok b =>
    dsimp only
    split
    · exact ⟨_, rfl⟩
    · split
      · exact ⟨_, rfl⟩
      · exact ⟨_, rfl⟩

/-- With an absent credential, `processDetailEnhance` always throws. -/
lemma processDetailEnhance_noToken (R : Runners) (img t : String) (st : ℤ) :
    ∃ e, processDetailEnhance R img t st none = .error e := by
  unfold processDetailEnhance processDetailEnhanceBody
  cases validateImageDataCjs img with
  | error e => exact ⟨_, rfl⟩
  | ok b =>
    dsimp only
    split
    · exact ⟨_, rfl⟩
    · split
      · exact ⟨_, rfl⟩
      · exact ⟨_, rfl⟩

/-- With an absent credential, `processUpscale` always throws. -/
lemma processUpscale_noToken (R : Runners) (img : String) (sc : ℤ)
    (fe : Bool) (model : String) :
    ∃ e, processUpscale R img sc fe model none = .error e := by
  unfold processUpscale processUpscaleBody
  cases validateImageDataCjs img with
  | error e => exact ⟨_, rfl⟩
  | ok b =>
    dsimp only
    cases validateUpscaleParams model sc with
    | error e => exact ⟨_, rfl⟩
    | ok b2 => exact ⟨_, rfl⟩

/-- With an absent credential, every provider call the orchestrator makes
throws. -/
lemma effectiveCall_noToken (R : Runners) (recs : Recommendations)
    (cur step : String) (r : Except String String)
    (h : effectiveCall R none recs cur step = some r) : ∃ e, r = .error e := by
  unfold effectiveCall at h
  by_cases h1 : step = "tone"
  · simp only [h1, if_pos] at h
    cases htone : recs.tone with
    | none => rw [htone] at h; exact absurd h (by simp)
    | some c =>
      rw [htone] at h
      dsimp only at h
      by_cases he : c.enabled
      · rw [if_pos he] at h
        obtain ⟨e, hee⟩ := processToneEnhance_noToken R cur c.type c.intensity
        exact ⟨e, by rw [← Option.some.injEq _ _ |>.mp h, hee]⟩
      · rw [if_neg he] at h; exact absurd h (by simp)
  · rw [if_neg h1] at h
    by_cases h2 : step = "detail"
    · simp only [h2, if_pos] at h
      cases hdet : recs.detail with
      | none => rw [hdet] at h; exact absurd h (by simp)
      | some c =>
        rw [hdet] at h
        dsimp only at h
        by_cases he : c.enabled
        · rw [if_pos he] at h
          obtain ⟨e, hee⟩ := processDetailEnhance_noToken R cur c.type c.strength
          exact ⟨e, by rw [← Option.some.injEq _ _ |>.mp h, hee]⟩
        · rw [if_neg he] at h; exact absurd h (by simp)
    · rw [if_neg h2] at h
      by_cases h3 : step = "upscale"
      · simp only [h3, if_pos] at h
        cases hup : recs.upscale with
        | none => rw [hup] at h; exact absurd h (by simp)
        | some c =>
          rw [hup] at h
          dsimp only at h
          by_cases he : c.enabled
          · rw [if_pos he] at h
            obtain ⟨e, hee⟩ := processUpscale_noToken R cur c.scale true c.model
            exact ⟨e, by rw [← Option.some.injEq _ _ |>.mp h, hee]⟩
          · rw [if_neg he] at h; exact absurd h (by simp)
      · rw [if_neg h3] at h; exact absurd h (by simp)

/-- With an absent credential, a run leaves the image unchanged and every
recorded step is a failure. -/
lemma runSteps_noToken (R : Runners) (recs : Recommendations) :
    ∀ (priority : List String) (currentImage : String),
      (runSteps R none recs priority currentImage).2 = currentImage ∧
      ∀ st ∈ (runSteps R none recs priority currentImage).1,
        st.success = false := by
  intro priority
  induction priority with
  | nil => intro cur; exact ⟨rfl, by simp [runSteps]⟩
  | cons step rest ih =>
    intro cur
    cases h : effectiveCall R none recs cur step with
    | none =>
      simp only [runSteps, h]
      exact ih cur
    | some r =>
      obtain ⟨e, rfl⟩ := effectiveCall_noToken R recs cur step r h
      simp only [runSteps, h]
      refine ⟨(ih cur).1, ?_⟩
      intro st hst
      rcases List.mem_cons.mp hst with rfl | hmem
      · rfl
      · exact (ih cur).2 st hmem

/-- Claim C1: for every plan and original image, the orchestrator's `final`
equals the output of the most recent successful step — the original image
when no step succeeded, in particular on an empty `priority` — and a failing
step appends a failed StepResult carrying the error description, leaves
`currentImage` unchanged, and still executes every remaining step of
`priority`. -/
theorem claim1_orchestrator (R : Runners) (apiToken : Option String)
    (imageBase64 : String) (recs : Recommendations) :
    ((processAutopilotEnhance R imageBase64 recs apiToken).results.final =
      lastSuccessOutput
        (processAutopilotEnhance R imageBase64 recs apiToken).results.steps
        imageBase64) ∧
    (recs.priority = [] →
      (processAutopilotEnhance R imageBase64 recs apiToken).results.steps = [] ∧
      (processAutopilotEnhance R imageBase64 recs apiToken).results.final =
        imageBase64) ∧
    (∀ (step : String) (rest : List String) (currentImage e : String),
      effectiveCall R apiToken recs currentImage step = some (.error e) →
      runSteps R apiToken recs (step :: rest) currentImage =
        (⟨step, none, some e, false⟩ ::
            (runSteps R apiToken recs rest currentImage).1,
          (runSteps R apiToken recs rest currentImage).2)) := by
  refine ⟨runSteps_final R apiToken recs recs.priority imageBase64, ?_, ?_⟩
  · intro hp
    unfold processAutopilotEnhance
    rw [hp]
    exact ⟨rfl, rfl⟩
  · intro step rest currentImage e h
    simp only [runSteps, h]

/-- Witness for C1: the spec's partial-failure scenario — plan
[tone, detail, upscale] where the tone provider throws and the others
succeed: the tone call is an effective failing call, the failed record is
appended with the run continuing unchanged, and the final image is the
upscale output with success flags [false, true, true]. -/
theorem claim1_orchestrator_witness :
    effectiveCall demoRunners (some "tok") demoPlan demoImage "tone" =
      some (.error "影调增强处理失败: tone boom") ∧
    runSteps demoRunners (some "tok") demoPlan ("tone" :: ["detail", "upscale"])
        demoImage =
      (⟨"tone", none, some "影调增强处理失败: tone boom", false⟩ ::
          (runSteps demoRunners (some "tok") demoPlan ["detail", "upscale"]
            demoImage).1,
        (runSteps demoRunners (some "tok") demoPlan ["detail", "upscale"]
          demoImage).2) ∧
    (processAutopilotEnhance demoRunners demoImage demoPlan
        (some "tok")).results.final =
      lastSuccessOutput
        (processAutopilotEnhance demoRunners demoImage demoPlan
          (some "tok")).results.steps demoImage ∧
    (processAutopilotEnhance demoRunners demoImage demoPlan
        (some "tok")).results.final = "https://upscale.png" ∧
    ((processAutopilotEnhance demoRunners demoImage demoPlan
        (some "tok")).results.steps.map (·.success)) = [false, true, true] :=
  ⟨rfl,
    (claim1_orchestrator demoRunners (some "tok") demoImage demoPlan).2.2
      "tone" ["detail", "upscale"] demoImage
      "影调增强处理失败: tone boom" rfl,
    (claim1_orchestrator demoRunners (some "tok") demoImage demoPlan).1,
    rfl, rfl⟩

/-- Counterexample to claim C9: with an absent credential the orchestrator
does NOT fail fast — it executes each plan step, records the credential
failure in that step's StepResult, and returns a success aggregate with the
original image as `final`. -/
theorem claim9_counterexample :
    (processAutopilotEnhance demoRunners demoImage demoPlan none).success = true ∧
    (processAutopilotEnhance demoRunners demoImage demoPlan none).results.steps =
      [⟨"tone", none,
          some "影调增强处理失败: REPLICATE_API_TOKEN is required", false⟩,
        ⟨"detail", none,
          some "细节增强处理失败: REPLICATE_API_TOKEN is required", false⟩,
        ⟨"upscale", none,
          some "图像超分处理失败: REPLICATE_API_TOKEN is required", false⟩] ∧
    (processAutopilotEnhance demoRunners demoImage demoPlan none).results.final =
      demoImage :=
  ⟨rfl, rfl, rfl⟩

/-- Claim C9 as amended: the Vercel HTTP handler rejects the request before
the orchestrator runs when the credential is absent, but the orchestrator
itself performs no upfront credential check — run with an absent credential
it executes the plan, every recorded step fails (each provider-call path
throws `REPLICATE_API_TOKEN is required` at client construction), no step
succeeds, and `final` stays the original image. -/
theorem claim9_amended :
    (∀ (R : Runners) (imageBase64 : Option String)
      (recs : Option Recommendations),
      autopilotEnhanceHandler R none imageBase64 recs =
        .error "REPLICATE_API_TOKEN未配置") ∧
    (∀ (R : Runners) (imageBase64 : String) (recs : Recommendations),
      (processAutopilotEnhance R imageBase64 recs none).results.final =
        imageBase64 ∧
      (processAutopilotEnhance R imageBase64 recs none).successful_steps = 0 ∧
      ∀ st ∈ (processAutopilotEnhance R imageBase64 recs none).results.steps,
        st.success = false) := by
  constructor
  · intro R imageBase64 recs
    rfl
  · intro R imageBase64 recs
    obtain ⟨hfin, hfail⟩ := runSteps_noToken R recs recs.priority imageBase64
    refine ⟨hfin, ?_, hfail⟩
    show ((runSteps R none recs recs.priority imageBase64).1.filter
      (·.success)).length = 0
    rw [List.length_eq_zero]
    rw [List.filter_eq_nil_iff]
    intro a ha
    simp [hfail a ha]

/-- Witness for the amended C9 at the demo inputs. -/
theorem claim9_amended_witness :
    autopilotEnhanceHandler demoRunners none (some demoImage) (some demoPlan) =
      .error "REPLICATE_API_TOKEN未配置" ∧
    (processAutopilotEnhance demoRunners demoImage demoPlan none).results.final =
      demoImage ∧
    (processAutopilotEnhance demoRunners demoImage demoPlan
      none).successful_steps = 0 ∧
    StepRecord.success
      ⟨"tone", none,
        some "影调增强处理失败: REPLICATE_API_TOKEN is required", false⟩ =
      false :=
  ⟨claim9_amended.1 demoRunners (some demoImage) (some demoPlan),
    (claim9_amended.2 demoRunners demoImage demoPlan).1,
    (claim9_amended.2 demoRunners demoImage demoPlan).2.1,
    (claim9_amended.2 demoRunners demoImage demoPlan).2.2
      ⟨"tone", none,
        some "影调增强处理失败: REPLICATE_API_TOKEN is required", false⟩
      (by decide)⟩
